import Mathlib

/-!
Verification of the character-matrix layer of DendroPy
(src/dendropy/datamodel/charmatrixmodel.py) against its natural-language
specification.

The Python module is shallowly embedded below.  Mutable objects become
explicit values, exceptions become an explicit error type (`PyError`),
and the insertion-ordered Python dict `_taxon_sequence_map` becomes an
association list keyed by `Taxon` whose object identity is its `id`
field.  Taxon and namespace equality in the source is reference
(identity) equality, so identity is carried explicitly as a numeric id.

External collaborators of the module (taxonmodel.py, basemodel.py,
charstatemodel.py, error.py) are not part of the sources; where their
behaviour is needed it is modelled from the specification, and each such
definition carries a doc comment starting with "Modelled from the spec:".
-/

namespace DendroPy

/-- Modelled from the spec: a `Taxon` (taxonmodel.py, not under src/) is an
opaque identity with a label; equality is reference/identity based, which
is modelled by the numeric `id` field. -/
structure Taxon where
  id : Nat
  label : String
deriving DecidableEq, Repr

/-- Modelled from the spec: a `TaxonNamespace` (taxonmodel.py, not under
src/) is an ordered set of unique `Taxon` references.  Python's `is`
comparison of two namespace objects is modelled by comparing `nsId`;
two structurally equal namespaces may carry different `nsId`s. -/
structure TaxonNamespace where
  nsId : Nat
  taxa : List Taxon
deriving DecidableEq, Repr

/-- Modelled from the spec: membership of a taxon in a namespace
(`taxon in taxon_namespace`); `Taxon.__eq__` is reference equality, so the
test compares object identities. -/
def tnsContains (tns : TaxonNamespace) (t : Taxon) : Bool :=
  tns.taxa.any (fun x => x.id = t.id)

/-- Modelled from the spec: `TaxonNamespace.get_taxon(label=...)`
(label-based lookup) returns the first member taxon with the given label,
or `none` when there is no such taxon. -/
def get_taxon (tns : TaxonNamespace) (lbl : String) : Option Taxon :=
  tns.taxa.find? (fun t => t.label = lbl)

/-- The exceptions raised by the embedded code. `taxonNamespaceError`
stands for `error.TaxonNamespaceError` (error.py, not under src/), which
the spec calls the identity/namespace error. -/
inductive PyError where
  | valueError : String → PyError
  | keyError : String → PyError
  | indexError : Int → PyError
  | typeError : String → PyError
  | attributeError : String → PyError
  | nameError : String → PyError
  | taxonNamespaceError : PyError
deriving DecidableEq, Repr

instance {ε α : Type} [DecidableEq ε] [DecidableEq α] : DecidableEq (Except ε α) := fun a b =>
  match a, b with
  | .ok x, .ok y =>
      if h : x = y then isTrue (h ▸ rfl) else isFalse (fun hc => h (Except.ok.inj hc))
  | .error x, .error y =>
      if h : x = y then isTrue (h ▸ rfl) else isFalse (fun hc => h (Except.error.inj hc))
  | .ok _, .error _ => isFalse (fun hc => Except.noConfusion hc)
  | .error _, .ok _ => isFalse (fun hc => Except.noConfusion hc)

/-- The taxon-to-sequence map `_taxon_sequence_map`: a Python 3 dict, i.e.
an insertion-ordered association list with unique keys.  Keys are compared
as Python compares `Taxon` objects: by identity (`id`). -/
abbrev SeqMap (α : Type) := List (Taxon × List α)

/-- Dict lookup `d[taxon]` / `d.get(taxon)` on the taxon-keyed map. -/
def mapGet? {α : Type} : SeqMap α → Taxon → Option (List α)
  | [], _ => none
  | p :: rest, t => if p.1.id = t.id then some p.2 else mapGet? rest t

/-- Dict membership `taxon in d`. -/
def mapContains {α : Type} (m : SeqMap α) (t : Taxon) : Bool :=
  (mapGet? m t).isSome

/-- Dict assignment `d[taxon] = v`: replaces the value in place when an
equal key is present (keeping the original key object and its position),
and appends a new entry otherwise, exactly as a Python 3 dict does. -/
def mapSet {α : Type} : SeqMap α → Taxon → List α → SeqMap α
  | [], t, v => [(t, v)]
  | p :: rest, t, v => if p.1.id = t.id then (p.1, v) :: rest else p :: mapSet rest t v

/-- The Python-dict invariant that keys are unique (by object identity). -/
def keysNodup {α : Type} (m : SeqMap α) : Prop :=
  (m.map (fun p => p.1.id)).Nodup

instance {α : Type} (m : SeqMap α) : Decidable (keysNodup m) := by
  unfold keysNodup; infer_instance

/-- `CharacterMatrix` (charmatrixmodel.py lines 229-1240): the label, the
associated `TaxonNamespace` reference, and the taxon-to-sequence map.  The
cell type `α` is generic, as `CharacterSequence` stores arbitrary values.
Character types and subsets are omitted here because every operation under
proof either never touches them or dies before reaching them. -/
structure CharacterMatrix (α : Type) where
  label : Option String
  tns : TaxonNamespace
  seqMap : SeqMap α
deriving DecidableEq, Repr

/-- Map-access keys accepted by `_resolve_key` (lines 619-638): an integer
index, a string label, or a `Taxon` reference. -/
inductive MatrixKey where
  | byIndex : Int → MatrixKey
  | byLabel : String → MatrixKey
  | byTaxon : Taxon → MatrixKey
deriving DecidableEq, Repr

/-- `repr(key)` as used in the `__setitem__` error message.  Python's
`repr` of a Taxon object shows its address; the address is modelled by the
taxon's identity. -/
def keyRepr : MatrixKey → String
  | .byIndex i => toString i
  | .byLabel s => "\x27" ++ s ++ "\x27"
  | .byTaxon t => "<Taxon " ++ toString t.id ++ ">"

/-- `CharacterMatrix._resolve_key` (lines 619-638): an integer key is an
index into the namespace (out of range raises `IndexError`), a string key
is a label looked up in the namespace (not found raises `KeyError`), and a
`Taxon` key passes through unchanged with no membership validation. -/
def resolve_key {α : Type} (m : CharacterMatrix α) (k : MatrixKey) : Except PyError Taxon :=
  match k with
  | .byIndex i =>
      if 0 ≤ i ∧ i < (m.tns.taxa.length : Int) then
        match m.tns.taxa.get? i.toNat with
        | some t => .ok t
        | none => .error (.indexError i)
      else
        .error (.indexError i)
  | .byLabel s =>
      match get_taxon m.tns s with
      | some t => .ok t
      | none => .error (.keyError s)
  | .byTaxon t => .ok t

/-- `CharacterMatrix.new_sequence` (lines 640-665): fails when a sequence
already exists for the taxon or when the taxon is not a namespace member;
otherwise creates a sequence from `values` (empty when `values` is
`None`), stores it and returns it. -/
def new_sequence {α : Type} (m : CharacterMatrix α) (taxon : Taxon) (values : Option (List α)) :
    Except PyError (List α × CharacterMatrix α) :=
  if mapContains m.seqMap taxon then
    .error (.valueError ("Character values vector for taxon " ++ taxon.label ++ " already exists"))
  else if tnsContains m.tns taxon = false then
    .error (.valueError ("Taxon " ++ taxon.label ++ " is not in object taxon namespace"))
  else
    let cv := values.getD []
    .ok (cv, { m with seqMap := m.seqMap ++ [(taxon, cv)] })

/-- `CharacterMatrix.__getitem__` (lines 667-698): resolves the key; if a
sequence exists it is returned, otherwise one is auto-created via
`new_sequence` (mutating the matrix).  The result pairs the returned
sequence with the post-call matrix. -/
def getItem {α : Type} (m : CharacterMatrix α) (k : MatrixKey) :
    Except PyError (List α × CharacterMatrix α) :=
  match resolve_key m k with
  | .error e => .error e
  | .ok taxon =>
      match mapGet? m.seqMap taxon with
      | some s => .ok (s, m)
      | none => new_sequence m taxon none

/-- `CharacterMatrix.__setitem__` (lines 700-727): resolves the key,
raises `ValueError(repr(key))` when the resolved taxon is not a namespace
member, otherwise wraps the values and assigns them.  The first component
of the result is the post-call matrix (unchanged whenever an error is
raised, since the raise happens before the assignment); the second is the
raised exception, if any. -/
def setItem {α : Type} (m : CharacterMatrix α) (k : MatrixKey) (values : List α) :
    CharacterMatrix α × Option PyError :=
  match resolve_key m k with
  | .error e => (m, some e)
  | .ok taxon =>
      if tnsContains m.tns taxon = false then
        (m, some (.valueError (keyRepr k)))
      else
        ({ m with seqMap := mapSet m.seqMap taxon values }, none)

/-- `CharacterMatrix.__contains__` (lines 729-750): the implementation
delegates the *raw* key to `_taxon_sequence_map.__contains__` without
resolving it.  The map is keyed by `Taxon` objects, whose equality is
identity-based, so an integer or string key never matches any entry. -/
def rawKeyInMap {α : Type} (m : CharacterMatrix α) : MatrixKey → Bool
  | .byTaxon t => mapContains m.seqMap t
  | .byIndex _ => false
  | .byLabel _ => false

/-- `CharacterMatrix.__iter__` (lines 793-797): yields the namespace's
taxa, in namespace order, filtered to those with an entry in the
taxon-to-sequence map. -/
def matrixIter {α : Type} (m : CharacterMatrix α) : List Taxon :=
  m.tns.taxa.filter (fun t => mapContains m.seqMap t)

/-! ### Bulk merge operations (lines 945-1077)

Each operation first checks `other_matrix.taxon_namespace is not
self.taxon_namespace` (reference identity, modelled by `nsId`) and raises
`error.TaxonNamespaceError` on mismatch; otherwise it loops over
`other_matrix._taxon_sequence_map` updating `self._taxon_sequence_map`.
Each loop body is a named step function folded over the other matrix's
entries; "shallow copy" of a source sequence
(`self.__class__.character_sequence_type(seq)`) creates a new container
with the same cells, which is value-identical here. -/

/-- Loop body of `add_sequences` (lines 966-968): add only taxa not
already in self. -/
def addStep {α : Type} (acc : SeqMap α) (p : Taxon × List α) : SeqMap α :=
  if mapContains acc p.1 then acc else acc ++ [(p.1, p.2)]

/-- `CharacterMatrix.add_sequences` (lines 945-968). -/
def add_sequences {α : Type} (self other : CharacterMatrix α) :
    Except PyError (CharacterMatrix α) :=
  if self.tns.nsId = other.tns.nsId then
    .ok { self with seqMap := other.seqMap.foldl addStep self.seqMap }
  else
    .error .taxonNamespaceError

/-- Loop body of `replace_sequences` (lines 991-993): overwrite only taxa
shared with self. -/
def replaceStep {α : Type} (acc : SeqMap α) (p : Taxon × List α) : SeqMap α :=
  if mapContains acc p.1 then mapSet acc p.1 p.2 else acc

/-- `CharacterMatrix.replace_sequences` (lines 970-993). -/
def replace_sequences {α : Type} (self other : CharacterMatrix α) :
    Except PyError (CharacterMatrix α) :=
  if self.tns.nsId = other.tns.nsId then
    .ok { self with seqMap := other.seqMap.foldl replaceStep self.seqMap }
  else
    .error .taxonNamespaceError

/-- Loop body of `update_sequences` (lines 1018-1019): unconditional dict
assignment. -/
def updateStep {α : Type} (acc : SeqMap α) (p : Taxon × List α) : SeqMap α :=
  mapSet acc p.1 p.2

/-- `CharacterMatrix.update_sequences` (lines 995-1019). -/
def update_sequences {α : Type} (self other : CharacterMatrix α) :
    Except PyError (CharacterMatrix α) :=
  if self.tns.nsId = other.tns.nsId then
    .ok { self with seqMap := other.seqMap.foldl updateStep self.seqMap }
  else
    .error .taxonNamespaceError

/-- Loop body of `extend_sequences` (lines 1043-1045): in-place
`list.extend` of the destination sequence, only for shared taxa. -/
def extendSeqStep {α : Type} (acc : SeqMap α) (p : Taxon × List α) : SeqMap α :=
  if mapContains acc p.1 then mapSet acc p.1 ((mapGet? acc p.1).getD [] ++ p.2) else acc

/-- `CharacterMatrix.extend_sequences` (lines 1021-1045). -/
def extend_sequences {α : Type} (self other : CharacterMatrix α) :
    Except PyError (CharacterMatrix α) :=
  if self.tns.nsId = other.tns.nsId then
    .ok { self with seqMap := other.seqMap.foldl extendSeqStep self.seqMap }
  else
    .error .taxonNamespaceError

/-- Loop body of `extend_matrix` (lines 1073-1077): extend shared taxa in
place, copy sequences in for taxa only in the source. -/
def extendMatStep {α : Type} (acc : SeqMap α) (p : Taxon × List α) : SeqMap α :=
  if mapContains acc p.1 then mapSet acc p.1 ((mapGet? acc p.1).getD [] ++ p.2)
  else acc ++ [(p.1, p.2)]

/-- `CharacterMatrix.extend_matrix` (lines 1047-1077). -/
def extend_matrix {α : Type} (self other : CharacterMatrix α) :
    Except PyError (CharacterMatrix α) :=
  if self.tns.nsId = other.tns.nsId then
    .ok { self with seqMap := other.seqMap.foldl extendMatStep self.seqMap }
  else
    .error .taxonNamespaceError

/-! ### Concatenation (lines 282-324)

`CharacterMatrix.concatenate` takes `taxon_namespace` and `nseqs` from the
first matrix and then loops over all matrices.  Per iteration it checks,
in order: same namespace reference, sequence count equal to namespace
size, sequence count equal to `nseqs`.  It then evaluates
`v1 = len(cm[0])` (an `IndexError` when the namespace is empty) and next
iterates `cm.items()` - but `CharacterMatrix` defines no `items` method
(it is commented out at lines 811-813 together with the rest of the old
dict interface), so Python raises `AttributeError` here on every matrix
that passes its three checks.  Everything after that point in the loop
body is unreachable dead code: the per-matrix length check with its
broken "...matrix %d".format(cidx+1) message, the call to the likewise
removed `extend` method (commented out at lines 1112-1132), and the
character-subset registration with its "locus%03d" % cidx labels.  Since
no iteration can complete, the accumulator matrix is never populated and
the loop below does not thread it. -/

/-- One iteration of the `concatenate` loop over matrix `cm` (lines
297-306), up to the first raised exception. -/
def concatStep {α : Type} (tns : TaxonNamespace) (nseqs : Nat) (cm : CharacterMatrix α) :
    Except PyError Unit :=
  if cm.tns.nsId ≠ tns.nsId then
    .error (.valueError "Different `taxon_namespace` references in matrices to be merged")
  else if cm.seqMap.length ≠ tns.taxa.length then
    .error (.valueError "Number of sequences not equal to the number of taxa")
  else if cm.seqMap.length ≠ nseqs then
    .error (.valueError ("Different number of sequences across alignments: "
      ++ toString cm.seqMap.length ++ " (expecting " ++ toString nseqs
      ++ " based on first matrix)"))
  else
    match tns.taxa with
    | [] => .error (.indexError 0)
    | _ :: _ => .error (.attributeError "items")

/-- The `for cidx, cm in enumerate(char_matrices)` loop of `concatenate`. -/
def concatLoop {α : Type} (tns : TaxonNamespace) (nseqs : Nat) :
    List (CharacterMatrix α) → Except PyError (CharacterMatrix α)
  | [] => .ok { label := none, tns := tns, seqMap := [] }
  | cm :: rest =>
      match concatStep tns nseqs cm with
      | .error e => .error e
      | .ok _ => concatLoop tns nseqs rest

/-- `CharacterMatrix.concatenate` (lines 282-324).  An empty input list
raises `IndexError` at `char_matrices[0]`. -/
def concatenate {α : Type} : List (CharacterMatrix α) → Except PyError (CharacterMatrix α)
  | [] => .error (.indexError 0)
  | cm0 :: rest => concatLoop cm0.tns cm0.seqMap.length (cm0 :: rest)

/-! ### Export (lines 1160-1185 and 1233-1240) -/

/-- `CharacterMatrix.export_character_indices` (lines 1173-1185).  The
method clones `self` and then runs
`for vec in clone.taxon_seq_map.values():`.  Evaluating
`clone.taxon_seq_map` invokes the legacy property `_get_taxon_seq_map`
(lines 1233-1240), whose first statement is `error.dump_stack(msg)`; the
name `msg` is bound nowhere in the module, so Python raises `NameError`
before any column is touched (and even past that, the matrix has no
`values` method - it is commented out at lines 815-817).  The original
matrix is therefore returned to the caller unmodified, but no exported
matrix is ever produced. -/
def export_character_indices {α : Type} (_m : CharacterMatrix α) (_indices : List Int) :
    Except PyError (CharacterMatrix α) :=
  .error (.nameError "msg")

/-! ### Discrete matrices: state alphabets and remapping (lines 1254-1332) -/

/-- Modelled from the spec: a `StateIdentity` (charstatemodel.py, not
under src/) is an identity-bearing state value exposing its symbol;
identity is modelled by `stateId`. -/
structure StateIdentity where
  stateId : Nat
  symbol : String
deriving DecidableEq, Repr

/-- Modelled from the spec: a `StateAlphabet` (charstatemodel.py, not
under src/) is a fixed vocabulary of state identities; it is
identity-bearing (modelled by `alphId`) and supports symbol-to-identity
lookup. -/
structure StateAlphabet where
  alphId : Nat
  states : List StateIdentity
deriving DecidableEq, Repr

/-- Modelled from the spec: `StateAlphabet.symbol_state_map()` symbol
lookup - returns the identity in the alphabet carrying the given symbol,
or `none` (in which case the Python dict access raises `KeyError`). -/
def symbol_state_map (sa : StateAlphabet) (sym : String) : Option StateIdentity :=
  sa.states.find? (fun st => st.symbol = sym)

/-- A discrete-data cell as manipulated by
`remap_to_state_alphabet_by_symbol` (line 1313): a mutable holder whose
`value` is a state identity. -/
structure Cell where
  value : StateIdentity
deriving DecidableEq, Repr

/-- `DiscreteCharacterMatrix` (lines 1254-1332): a character matrix of
discrete cells plus the registered state alphabets, the nominated default
alphabet, and the column types' alphabet bindings (each `CharacterType`
is represented by the alphabet it binds). -/
structure DiscreteCharacterMatrix where
  matrix : CharacterMatrix Cell
  state_alphabets : List StateAlphabet
  defaultAlphabet : Option StateAlphabet
  character_types : List StateAlphabet
deriving DecidableEq, Repr

/-- `DiscreteCharacterMatrix._get_default_state_alphabet` (lines
1274-1283): the nominated default if any, else the sole registered
alphabet, else a `TypeError`. -/
def get_default_state_alphabet (m : DiscreteCharacterMatrix) : Except PyError StateAlphabet :=
  match m.defaultAlphabet with
  | some s => .ok s
  | none =>
      match m.state_alphabets with
      | [s] => .ok s
      | [] => .error (.typeError "No state alphabets defined for this matrix")
      | _ => .error (.typeError "Multiple state alphabets defined for this matrix with no default specified")

/-- `DiscreteCharacterMatrix._set_default_state_alphabet` (lines
1284-1288): appends the alphabet to the registered list when absent
(`in` compares alphabet object identities) and nominates it as default. -/
def set_default_state_alphabet (m : DiscreteCharacterMatrix) (s : StateAlphabet) :
    DiscreteCharacterMatrix :=
  let alphabets :=
    if m.state_alphabets.any (fun x => x.alphId = s.alphId) then m.state_alphabets
    else m.state_alphabets ++ [s]
  { m with state_alphabets := alphabets, defaultAlphabet := some s }

/-- The inner cell loop of `remap_to_state_alphabet_by_symbol` (lines
1312-1313) applied to one sequence: each cell's value is replaced by the
target-alphabet identity with the same symbol; a missing symbol raises
`KeyError` at the dict access. -/
def remapSeq (sa : StateAlphabet) : List Cell → Except PyError (List Cell)
  | [] => .ok []
  | c :: rest =>
      match symbol_state_map sa c.value.symbol with
      | none => .error (.keyError c.value.symbol)
      | some st =>
          match remapSeq sa rest with
          | .error e => .error e
          | .ok r => .ok (⟨st⟩ :: r)

/-- The outer sequence loop of `remap_to_state_alphabet_by_symbol`
(lines 1311-1313) over the taxon-to-sequence map. -/
def remapAll (sa : StateAlphabet) : SeqMap Cell → Except PyError (SeqMap Cell)
  | [] => .ok []
  | (t, s) :: rest =>
      match remapSeq sa s with
      | .error e => .error e
      | .ok s' =>
          match remapAll sa rest with
          | .error e => .error e
          | .ok r => .ok ((t, s') :: r)

/-- `DiscreteCharacterMatrix.remap_to_state_alphabet_by_symbol` (lines
1300-1318): remaps every cell of every sequence by symbol, rebinds every
character type to the target alphabet, and, when purging, sets the
registered-alphabet list to the target alone and nominates it default
(via the default setter).  In the source a mid-loop `KeyError` leaves
earlier cells already remapped; the embedding only reports the raised
error. -/
def remap_to_state_alphabet_by_symbol (m : DiscreteCharacterMatrix) (sa : StateAlphabet)
    (purge_other_state_alphabets : Bool) : Except PyError DiscreteCharacterMatrix :=
  match remapAll sa m.matrix.seqMap with
  | .error e => .error e
  | .ok sm =>
      let m1 := { m with
        matrix := { m.matrix with seqMap := sm },
        character_types := m.character_types.map (fun _ => sa) }
      if purge_other_state_alphabets then
        .ok (set_default_state_alphabet { m1 with state_alphabets := [sa] } sa)
      else
        .ok m1

/-! ### Fixed-alphabet variant construction (lines 1263-1288, 1373-1481)

`DiscreteCharacterMatrix.__init__` starts with an empty alphabet list and
no default; each fixed-alphabet variant then runs
`self.default_state_alphabet = BUILTIN` (the setter appends the builtin)
followed by `self.state_alphabets.append(self.default_state_alphabet)`
(a second, explicit append of the same object). -/

/-- `DiscreteCharacterMatrix.__init__` (lines 1263-1272) without a clone
source: empty map, no alphabets, no default. -/
def discreteInit (tns : TaxonNamespace) : DiscreteCharacterMatrix :=
  { matrix := { label := none, tns := tns, seqMap := [] }
    state_alphabets := []
    defaultAlphabet := none
    character_types := [] }

/-- The shared body of the six fixed-alphabet variant constructors
(e.g. `DnaCharacterMatrix.__init__`, lines 1396-1405) without a clone
source: seed the default alphabet through the setter, then explicitly
append the default-alphabet property's value to the registered list. -/
def fixedAlphabetInit (tns : TaxonNamespace) (builtin : StateAlphabet) :
    Except PyError DiscreteCharacterMatrix :=
  let m1 := set_default_state_alphabet (discreteInit tns) builtin
  match get_default_state_alphabet m1 with
  | .error e => .error e
  | .ok d => .ok { m1 with state_alphabets := m1.state_alphabets ++ [d] }

/-- Modelled from the spec: `DNA_STATE_ALPHABET` (charstatemodel.py, not
under src/), a built-in constant alphabet whose symbols include the four
bases and the ambiguity code "N". -/
def DNA_STATE_ALPHABET : StateAlphabet :=
  ⟨1, [⟨10, "A"⟩, ⟨11, "C"⟩, ⟨12, "G"⟩, ⟨13, "T"⟩, ⟨14, "N"⟩, ⟨15, "-"⟩]⟩

/-- Modelled from the spec: `RNA_STATE_ALPHABET` (charstatemodel.py, not
under src/). -/
def RNA_STATE_ALPHABET : StateAlphabet :=
  ⟨2, [⟨20, "A"⟩, ⟨21, "C"⟩, ⟨22, "G"⟩, ⟨23, "U"⟩, ⟨24, "N"⟩, ⟨25, "-"⟩]⟩

/-- Modelled from the spec: `NUCLEOTIDE_STATE_ALPHABET` (charstatemodel.py,
not under src/). -/
def NUCLEOTIDE_STATE_ALPHABET : StateAlphabet :=
  ⟨3, [⟨30, "A"⟩, ⟨31, "C"⟩, ⟨32, "G"⟩, ⟨33, "T"⟩, ⟨34, "U"⟩, ⟨35, "N"⟩, ⟨36, "-"⟩]⟩

/-- Modelled from the spec: `PROTEIN_STATE_ALPHABET` (charstatemodel.py,
not under src/); only identity matters for the claims below, so a handful
of residues stand in for the full amino-acid vocabulary. -/
def PROTEIN_STATE_ALPHABET : StateAlphabet :=
  ⟨4, [⟨40, "A"⟩, ⟨41, "C"⟩, ⟨42, "D"⟩, ⟨43, "E"⟩, ⟨44, "-"⟩]⟩

/-- Modelled from the spec: `RESTRICTION_SITES_STATE_ALPHABET`
(charstatemodel.py, not under src/). -/
def RESTRICTION_SITES_STATE_ALPHABET : StateAlphabet :=
  ⟨5, [⟨50, "0"⟩, ⟨51, "1"⟩]⟩

/-- Modelled from the spec: `INFINITE_SITES_STATE_ALPHABET`
(charstatemodel.py, not under src/). -/
def INFINITE_SITES_STATE_ALPHABET : StateAlphabet :=
  ⟨6, [⟨60, "0"⟩, ⟨61, "1"⟩]⟩

/-- `DnaCharacterMatrix.__init__` (lines 1391-1405), no clone source. -/
def dnaInit (tns : TaxonNamespace) : Except PyError DiscreteCharacterMatrix :=
  fixedAlphabetInit tns DNA_STATE_ALPHABET

/-- `RnaCharacterMatrix.__init__` (lines 1407-1421), no clone source. -/
def rnaInit (tns : TaxonNamespace) : Except PyError DiscreteCharacterMatrix :=
  fixedAlphabetInit tns RNA_STATE_ALPHABET

/-- `NucleotideCharacterMatrix.__init__` (lines 1423-1434), no clone
source. -/
def nucleotideInit (tns : TaxonNamespace) : Except PyError DiscreteCharacterMatrix :=
  fixedAlphabetInit tns NUCLEOTIDE_STATE_ALPHABET

/-- `ProteinCharacterMatrix.__init__` (lines 1436-1449), no clone
source. -/
def proteinInit (tns : TaxonNamespace) : Except PyError DiscreteCharacterMatrix :=
  fixedAlphabetInit tns PROTEIN_STATE_ALPHABET

/-- `RestrictionSitesCharacterMatrix.__init__` (lines 1451-1465), no
clone source. -/
def restrictionInit (tns : TaxonNamespace) : Except PyError DiscreteCharacterMatrix :=
  fixedAlphabetInit tns RESTRICTION_SITES_STATE_ALPHABET

/-- `InfiniteSitesCharacterMatrix.__init__` (lines 1467-1481), no clone
source. -/
def infiniteInit (tns : TaxonNamespace) : Except PyError DiscreteCharacterMatrix :=
  fixedAlphabetInit tns INFINITE_SITES_STATE_ALPHABET

/-! ### Matrix factory (lines 1486-1508) -/

/-- The seven concrete matrix variants of `data_type_matrix_map`. -/
inductive MatrixVariant where
  | continuousV
  | dnaV
  | rnaV
  | proteinV
  | standardV
  | restrictionV
  | infiniteV
deriving DecidableEq, Repr

/-- `data_type_matrix_map` (lines 1486-1494). -/
def data_type_matrix_map : List (String × MatrixVariant) :=
  [("continuous", .continuousV), ("dna", .dnaV), ("rna", .rnaV), ("protein", .proteinV),
   ("standard", .standardV), ("restriction", .restrictionV), ("infinite", .infiniteV)]

/-- `dict.get(data_type, None)` on the tag table. -/
def lookupTag : List (String × MatrixVariant) → String → Option MatrixVariant
  | [], _ => none
  | p :: rest, s => if p.1 = s then some p.2 else lookupTag rest s

/-- `get_char_matrix_type` (lines 1496-1503).  Note that the `KeyError`
message is built with "...: \x27\x7b\x7d\x27".format(data_type,
sorted(data_type_matrix_map.keys())): the format string holds a single
placeholder, so the sorted key list passed as the second argument is
discarded and only the offending tag appears in the message. -/
def get_char_matrix_type (data_type : Option String) : Except PyError MatrixVariant :=
  match data_type with
  | none => .error (.typeError "\x27data_type\x27 must be specified")
  | some dt =>
      match lookupTag data_type_matrix_map dt with
      | some v => .ok v
      | none => .error (.keyError ("Unrecognized data type specification: \x27" ++ dt ++ "\x27"))

/-- `new_char_matrix` (lines 1505-1508): resolves the tag to a variant
and instantiates it; the instantiation itself adds nothing observable at
this granularity, so the chosen variant is returned. -/
def new_char_matrix (data_type : Option String) : Except PyError MatrixVariant :=
  get_char_matrix_type data_type

/-- Substring occurrence test on character lists (used only to state that
a given word does not occur in an error message). -/
def leadsWith : List Char → List Char → Bool
  | [], _ => true
  | _ :: _, [] => false
  | a :: as, b :: bs => a = b && leadsWith as bs

/-- `needle` occurs contiguously somewhere in `hay`. -/
def strHasSub (needle : List Char) : List Char → Bool
  | [] => leadsWith needle []
  | b :: rest => leadsWith needle (b :: rest) || strHasSub needle rest

/-! ### Helper lemmas about the taxon-keyed map -/

theorem mapGet?_congr_id {α : Type} (L : SeqMap α) {t s : Taxon} (h : t.id = s.id) :
    mapGet? L t = mapGet? L s := by
  induction L with
  | nil => rfl
  | cons p rest ih =>
      simp only [mapGet?, h]
      exact if hp : p.1.id = s.id then by simp [hp] else by simp [hp, ih]

theorem mapGet?_isSome_iff {α : Type} (L : SeqMap α) (t : Taxon) :
    (mapGet? L t).isSome = true ↔ t.id ∈ L.map (fun p => p.1.id) := by
  induction L with
  | nil => simp [mapGet?]
  | cons p rest ih =>
      by_cases hp : p.1.id = t.id
      · simp [mapGet?, hp]
      · simp only [mapGet?, if_neg hp, List.map_cons, List.mem_cons, ih]
        constructor
        · exact fun h => Or.inr h
        · rintro (h | h)
          · exact absurd h.symm hp
          · exact h

theorem mapGet?_append {α : Type} (L₁ L₂ : SeqMap α) (t : Taxon) :
    mapGet? (L₁ ++ L₂) t =
      match mapGet? L₁ t with
      | some v => some v
      | none => mapGet? L₂ t := by
  induction L₁ with
  | nil => simp [mapGet?]
  | cons p rest ih =>
      by_cases hp : p.1.id = t.id
      · simp [mapGet?, hp]
      · simp [mapGet?, hp, ih]

theorem mapGet?_mapSet {α : Type} (L : SeqMap α) (s t : Taxon) (v : List α) :
    mapGet? (mapSet L s v) t = if s.id = t.id then some v else mapGet? L t := by
  induction L with
  | nil =>
      by_cases h : s.id = t.id <;> simp [mapSet, mapGet?, h]
  | cons p rest ih =>
      simp only [mapSet]
      by_cases hps : p.1.id = s.id
      · rw [if_pos hps]
        by_cases hst : s.id = t.id
        · have hpt : p.1.id = t.id := hps.trans hst
          simp only [mapGet?, if_pos hpt, if_pos hst]
        · have hpt : ¬ p.1.id = t.id := fun h => hst (hps.symm.trans h)
          simp only [mapGet?, if_neg hpt, if_neg hst]
      · rw [if_neg hps]
        by_cases hpt : p.1.id = t.id
        · have hst : ¬ s.id = t.id := fun h => hps (hpt.trans h.symm)
          simp only [mapGet?, if_pos hpt, if_neg hst]
        · simp only [mapGet?, if_neg hpt, ih]

theorem keysNodup_cons {α : Type} (p : Taxon × List α) (rest : SeqMap α) :
    keysNodup (p :: rest) ↔ (mapGet? rest p.1 = none ∧ keysNodup rest) := by
  unfold keysNodup
  simp only [List.map_cons, List.nodup_cons]
  constructor
  · rintro ⟨hmem, hnd⟩
    refine ⟨?_, hnd⟩
    cases h : mapGet? rest p.1 with
    | none => rfl
    | some v =>
        exact absurd ((mapGet?_isSome_iff rest p.1).mp (by simp [h])) hmem
  · rintro ⟨hnone, hnd⟩
    refine ⟨fun hmem => ?_, hnd⟩
    have := (mapGet?_isSome_iff rest p.1).mpr hmem
    simp [hnone] at this

/-! ### Per-operation fold characterizations (looked up at a fixed taxon) -/

theorem addFold_get {α : Type} (L : List (Taxon × List α)) (acc : SeqMap α) (t : Taxon) :
    mapGet? (L.foldl addStep acc) t =
      match mapGet? acc t with
      | some v => some v
      | none => mapGet? L t := by
  induction L generalizing acc with
  | nil => cases h : mapGet? acc t <;> simp [mapGet?, h]
  | cons p rest ih =>
      simp only [List.foldl_cons]
      by_cases hc : mapContains acc p.1 = true
      · rw [show addStep acc p = acc from by unfold addStep; rw [if_pos hc], ih]
        cases h : mapGet? acc t with
        | some v => simp
        | none =>
            by_cases hpt : p.1.id = t.id
            · exfalso
              have : mapGet? acc p.1 = none := (mapGet?_congr_id acc hpt).trans h
              simp [mapContains, this] at hc
            · simp [mapGet?, hpt]
      · rw [show addStep acc p = acc ++ [(p.1, p.2)] from by unfold addStep; rw [if_neg hc],
          ih, mapGet?_append]
        cases h : mapGet? acc t with
        | some v => simp
        | none =>
            by_cases hpt : p.1.id = t.id
            · simp [mapGet?, hpt]
            · simp [mapGet?, hpt]

theorem replaceFold_get {α : Type} (L : List (Taxon × List α)) (acc : SeqMap α) (t : Taxon)
    (hnd : keysNodup L) :
    mapGet? (L.foldl replaceStep acc) t =
      match mapGet? acc t with
      | none => none
      | some v =>
          match mapGet? L t with
          | some w => some w
          | none => some v := by
  induction L generalizing acc with
  | nil => cases h : mapGet? acc t <;> simp [mapGet?, h]
  | cons p rest ih =>
      obtain ⟨hpnone, hndr⟩ := (keysNodup_cons p rest).mp hnd
      simp only [List.foldl_cons]
      by_cases hc : mapContains acc p.1 = true
      · rw [show replaceStep acc p = mapSet acc p.1 p.2 from by
          unfold replaceStep; rw [if_pos hc], ih _ hndr]
        by_cases hpt : p.1.id = t.id
        · have hrest : mapGet? rest t = none := (mapGet?_congr_id rest hpt) ▸ hpnone
          have hacc : (mapGet? acc t).isSome = true := by
            have h1 : (mapGet? acc p.1).isSome = true := hc
            rwa [mapGet?_congr_id acc hpt] at h1
          obtain ⟨v, hv⟩ := Option.isSome_iff_exists.mp hacc
          simp [mapGet?_mapSet, mapGet?, hv, hpt, hrest]
        · simp only [mapGet?_mapSet, if_neg hpt, mapGet?, if_neg hpt]
      · rw [show replaceStep acc p = acc from by unfold replaceStep; rw [if_neg hc], ih _ hndr]
        cases h : mapGet? acc t with
        | some v =>
            by_cases hpt : p.1.id = t.id
            · exfalso
              have : mapGet? acc p.1 = some v := (mapGet?_congr_id acc hpt).trans h
              simp [mapContains, this] at hc
            · simp [mapGet?, hpt]
        | none => simp

theorem updateFold_get {α : Type} (L : List (Taxon × List α)) (acc : SeqMap α) (t : Taxon)
    (hnd : keysNodup L) :
    mapGet? (L.foldl updateStep acc) t =
      match mapGet? L t with
      | some w => some w
      | none => mapGet? acc t := by
  induction L generalizing acc with
  | nil => cases h : mapGet? acc t <;> simp [mapGet?, h]
  | cons p rest ih =>
      obtain ⟨hpnone, hndr⟩ := (keysNodup_cons p rest).mp hnd
      simp only [List.foldl_cons]
      rw [show updateStep acc p = mapSet acc p.1 p.2 from rfl, ih _ hndr]
      by_cases hpt : p.1.id = t.id
      · have hrest : mapGet? rest t = none := (mapGet?_congr_id rest hpt) ▸ hpnone
        simp [mapGet?, hpt, hrest, mapGet?_mapSet]
      · simp [mapGet?, hpt, mapGet?_mapSet]

theorem extendSeqFold_get {α : Type} (L : List (Taxon × List α)) (acc : SeqMap α) (t : Taxon)
    (hnd : keysNodup L) :
    mapGet? (L.foldl extendSeqStep acc) t =
      match mapGet? acc t with
      | none => none
      | some v => some (v ++ (mapGet? L t).getD []) := by
  induction L generalizing acc with
  | nil => cases h : mapGet? acc t <;> simp [mapGet?, h]
  | cons p rest ih =>
      obtain ⟨hpnone, hndr⟩ := (keysNodup_cons p rest).mp hnd
      simp only [List.foldl_cons]
      by_cases hc : mapContains acc p.1 = true
      · rw [show extendSeqStep acc p = mapSet acc p.1 ((mapGet? acc p.1).getD [] ++ p.2) from by
          unfold extendSeqStep; rw [if_pos hc], ih _ hndr]
        by_cases hpt : p.1.id = t.id
        · have hrest : mapGet? rest t = none := (mapGet?_congr_id rest hpt) ▸ hpnone
          have hacct : (mapGet? acc t).isSome = true := by
            have h1 : (mapGet? acc p.1).isSome = true := hc
            rwa [mapGet?_congr_id acc hpt] at h1
          obtain ⟨v, hv⟩ := Option.isSome_iff_exists.mp hacct
          have hgetp : mapGet? acc p.1 = some v := (mapGet?_congr_id acc hpt).trans hv
          simp [mapGet?_mapSet, mapGet?, hv, hpt, hrest, hgetp]
        · simp only [mapGet?_mapSet, if_neg hpt, mapGet?, if_neg hpt]
      · rw [show extendSeqStep acc p = acc from by unfold extendSeqStep; rw [if_neg hc],
          ih _ hndr]
        cases h : mapGet? acc t with
        | some v =>
            by_cases hpt : p.1.id = t.id
            · exfalso
              have : mapGet? acc p.1 = some v := (mapGet?_congr_id acc hpt).trans h
              simp [mapContains, this] at hc
            · simp [mapGet?, hpt]
        | none => simp

theorem extendMatFold_get {α : Type} (L : List (Taxon × List α)) (acc : SeqMap α) (t : Taxon)
    (hnd : keysNodup L) :
    mapGet? (L.foldl extendMatStep acc) t =
      match mapGet? acc t with
      | none => mapGet? L t
      | some v => some (v ++ (mapGet? L t).getD []) := by
  induction L generalizing acc with
  | nil => cases h : mapGet? acc t <;> simp [mapGet?, h]
  | cons p rest ih =>
      obtain ⟨hpnone, hndr⟩ := (keysNodup_cons p rest).mp hnd
      simp only [List.foldl_cons]
      by_cases hc : mapContains acc p.1 = true
      · rw [show extendMatStep acc p = mapSet acc p.1 ((mapGet? acc p.1).getD [] ++ p.2) from by
          unfold extendMatStep; rw [if_pos hc], ih _ hndr]
        by_cases hpt : p.1.id = t.id
        · have hrest : mapGet? rest t = none := (mapGet?_congr_id rest hpt) ▸ hpnone
          have hacct : (mapGet? acc t).isSome = true := by
            have h1 : (mapGet? acc p.1).isSome = true := hc
            rwa [mapGet?_congr_id acc hpt] at h1
          obtain ⟨v, hv⟩ := Option.isSome_iff_exists.mp hacct
          have hgetp : mapGet? acc p.1 = some v := (mapGet?_congr_id acc hpt).trans hv
          simp [mapGet?_mapSet, mapGet?, hv, hpt, hrest, hgetp]
        · simp only [mapGet?_mapSet, if_neg hpt, mapGet?, if_neg hpt]
      · rw [show extendMatStep acc p = acc ++ [(p.1, p.2)] from by
          unfold extendMatStep; rw [if_neg hc], ih _ hndr, mapGet?_append]
        by_cases hpt : p.1.id = t.id
        · have haccnone : mapGet? acc t = none := by
            cases h : mapGet? acc t with
            | none => rfl
            | some v =>
                exfalso
                have : mapGet? acc p.1 = some v := (mapGet?_congr_id acc hpt).trans h
                simp [mapContains, this] at hc
          have hrest : mapGet? rest t = none := (mapGet?_congr_id rest hpt) ▸ hpnone
          simp [mapGet?, hpt, haccnone, hrest]
        · cases h : mapGet? acc t with
          | some v => simp [mapGet?, hpt]
          | none => simp [mapGet?, hpt]

/-! ### Helper lemmas about symbol remapping -/

theorem remapSeq_ok {sa : StateAlphabet} {s s' : List Cell} (h : remapSeq sa s = .ok s') :
    List.Forall₂ (fun c c' => symbol_state_map sa c.value.symbol = some c'.value) s s' := by
  induction s generalizing s' with
  | nil =>
      simp only [remapSeq] at h
      cases h
      exact List.Forall₂.nil
  | cons c rest ih =>
      simp only [remapSeq] at h
      cases hm : symbol_state_map sa c.value.symbol with
      | none => rw [hm] at h; cases h
      | some st =>
          rw [hm] at h
          cases hr : remapSeq sa rest with
          | error e => rw [hr] at h; cases h
          | ok r =>
              rw [hr] at h
              cases h
              exact List.Forall₂.cons hm (ih hr)

theorem remapSeq_ok_all_mapped {sa : StateAlphabet} {s s' : List Cell}
    (h : remapSeq sa s = .ok s') :
    ∀ c ∈ s, symbol_state_map sa c.value.symbol ≠ none := by
  induction s generalizing s' with
  | nil => intro c hc; cases hc
  | cons c0 rest ih =>
      simp only [remapSeq] at h
      cases hm : symbol_state_map sa c0.value.symbol with
      | none => rw [hm] at h; cases h
      | some st =>
          rw [hm] at h
          cases hr : remapSeq sa rest with
          | error e => rw [hr] at h; cases h
          | ok r =>
              intro c hc
              rcases List.mem_cons.mp hc with hc | hc
              · rw [hc, hm]; intro hfalse; cases hfalse
              · exact ih hr c hc

theorem remapSeq_error_shape {sa : StateAlphabet} {s : List Cell} {e : PyError}
    (h : remapSeq sa s = .error e) :
    ∃ sym, e = .keyError sym ∧ symbol_state_map sa sym = none := by
  induction s with
  | nil => simp only [remapSeq] at h; cases h
  | cons c rest ih =>
      simp only [remapSeq] at h
      cases hm : symbol_state_map sa c.value.symbol with
      | none =>
          rw [hm] at h
          cases h
          exact ⟨c.value.symbol, rfl, hm⟩
      | some st =>
          rw [hm] at h
          cases hr : remapSeq sa rest with
          | error e' =>
              rw [hr] at h
              cases h
              exact ih hr
          | ok r => rw [hr] at h; cases h

theorem remapAll_ok {sa : StateAlphabet} {M M' : SeqMap Cell} (h : remapAll sa M = .ok M') :
    List.Forall₂ (fun p q => p.1 = q.1 ∧
      List.Forall₂ (fun c c' => symbol_state_map sa c.value.symbol = some c'.value) p.2 q.2)
      M M' := by
  induction M generalizing M' with
  | nil =>
      simp only [remapAll] at h
      cases h
      exact List.Forall₂.nil
  | cons p rest ih =>
      obtain ⟨t, s⟩ := p
      simp only [remapAll] at h
      cases hs : remapSeq sa s with
      | error e => rw [hs] at h; cases h
      | ok s' =>
          rw [hs] at h
          cases hr : remapAll sa rest with
          | error e => rw [hr] at h; cases h
          | ok r =>
              rw [hr] at h
              cases h
              exact List.Forall₂.cons ⟨rfl, remapSeq_ok hs⟩ (ih hr)

theorem remapAll_ok_all_mapped {sa : StateAlphabet} {M M' : SeqMap Cell}
    (h : remapAll sa M = .ok M') :
    ∀ p ∈ M, ∀ c ∈ p.2, symbol_state_map sa c.value.symbol ≠ none := by
  induction M generalizing M' with
  | nil => intro p hp; cases hp
  | cons q rest ih =>
      obtain ⟨t, s⟩ := q
      simp only [remapAll] at h
      cases hs : remapSeq sa s with
      | error e => rw [hs] at h; cases h
      | ok s' =>
          rw [hs] at h
          cases hr : remapAll sa rest with
          | error e => rw [hr] at h; cases h
          | ok r =>
              intro p hp c hc
              rcases List.mem_cons.mp hp with hp | hp
              · rw [hp] at hc
                exact remapSeq_ok_all_mapped hs c hc
              · exact ih hr p hp c hc

theorem remapAll_error_shape {sa : StateAlphabet} {M : SeqMap Cell} {e : PyError}
    (h : remapAll sa M = .error e) :
    ∃ sym, e = .keyError sym ∧ symbol_state_map sa sym = none := by
  induction M with
  | nil => simp only [remapAll] at h; cases h
  | cons p rest ih =>
      obtain ⟨t, s⟩ := p
      simp only [remapAll] at h
      cases hs : remapSeq sa s with
      | error e' =>
          rw [hs] at h
          cases h
          exact remapSeq_error_shape hs
      | ok s' =>
          rw [hs] at h
          cases hr : remapAll sa rest with
          | error e' =>
              rw [hr] at h
              cases h
              exact ih hr
          | ok r => rw [hr] at h; cases h

/-! ### Concrete example data -/

/-- Example taxon "t1". -/
def tA : Taxon := ⟨1, "t1"⟩

/-- Example taxon "t2". -/
def tB : Taxon := ⟨2, "t2"⟩

/-- A two-taxon namespace shared by several example matrices. -/
def ns2 : TaxonNamespace := ⟨100, [tA, tB]⟩

/-- The spec's concatenation example matrix A. -/
def ex1A : CharacterMatrix Char := ⟨none, ns2, [(tA, "TCCAA".data), (tB, "TGCAA".data)]⟩

/-- The spec's concatenation example matrix B. -/
def ex1B : CharacterMatrix Char := ⟨none, ns2, [(tA, "GG".data), (tB, "GA".data)]⟩

/-- Claim C1.  The spec's own success scenario for `concatenate` - two
complete matrices over the same namespace - cannot succeed on this code:
after the first matrix passes its three checks, the loop body calls
`cm.items()`, a method `CharacterMatrix` no longer defines, so Python
raises `AttributeError` and no concatenated matrix, sequences, or
character subsets are ever produced. -/
theorem concatenate_spec_example_crashes :
    concatenate [ex1A, ex1B] = .error (.attributeError "items") := by decide

/-- A complete 2-taxon matrix for the C6 scenario. -/
def ex6A : CharacterMatrix Char := ⟨none, ns2, [(tA, "TCCAA".data), (tB, "TGCAA".data)]⟩

/-- A matrix with only one sequence over the 2-taxon namespace. -/
def ex6B : CharacterMatrix Char := ⟨none, ns2, [(tA, "GG".data)]⟩

/-- Claim C6.  Concatenating a complete first matrix with a second matrix
whose sequence count differs does not fail with the shape `ValueError`:
the `AttributeError` from the missing `items` method is raised while the
first matrix is processed, before the second matrix's count is ever
checked (so no `ValueError` naming the count mismatch occurs, and no
matrix is returned).  Only a violation detectable on the first matrix
itself - count unequal to namespace size, second conjunct - reaches its
`ValueError`. -/
theorem concatenate_count_mismatch_attribute_error :
    concatenate [ex6A, ex6B] = .error (.attributeError "items") ∧
    concatenate [ex6B] =
      .error (.valueError "Number of sequences not equal to the number of taxa") :=
  ⟨by decide, by decide⟩

/-- A single-taxon namespace for the C5 scenario. -/
def ex5ns : TaxonNamespace := ⟨200, [⟨5, "x1"⟩]⟩

/-- A 5-column matrix for the C5 scenario. -/
def ex5m : CharacterMatrix Char := ⟨none, ex5ns, [(⟨5, "x1"⟩, "ACGTA".data)]⟩

/-- Claim C5.  `export_character_indices([0,2,4])` on a 5-column matrix
does not return the 3-column matrix: the first loop statement evaluates
the legacy `taxon_seq_map` property, whose body reads the unbound name
`msg`, so the call raises `NameError` unconditionally. -/
theorem export_character_indices_name_error :
    export_character_indices ex5m [0, 2, 4] = .error (.nameError "msg") := rfl

/-- Claim C10.  Constructing any of the six fixed-alphabet variants
without a clone source registers the variant's built-in alphabet twice:
once via the default-alphabet setter and once via the constructor's
explicit append - the registered list holds exactly two entries, both the
same alphabet object, and that alphabet is the default. -/
theorem default_alphabet_double_append (tns : TaxonNamespace) :
    (∃ m, dnaInit tns = .ok m ∧
      m.state_alphabets = [DNA_STATE_ALPHABET, DNA_STATE_ALPHABET] ∧
      m.defaultAlphabet = some DNA_STATE_ALPHABET) ∧
    (∃ m, rnaInit tns = .ok m ∧
      m.state_alphabets = [RNA_STATE_ALPHABET, RNA_STATE_ALPHABET] ∧
      m.defaultAlphabet = some RNA_STATE_ALPHABET) ∧
    (∃ m, nucleotideInit tns = .ok m ∧
      m.state_alphabets = [NUCLEOTIDE_STATE_ALPHABET, NUCLEOTIDE_STATE_ALPHABET] ∧
      m.defaultAlphabet = some NUCLEOTIDE_STATE_ALPHABET) ∧
    (∃ m, proteinInit tns = .ok m ∧
      m.state_alphabets = [PROTEIN_STATE_ALPHABET, PROTEIN_STATE_ALPHABET] ∧
      m.defaultAlphabet = some PROTEIN_STATE_ALPHABET) ∧
    (∃ m, restrictionInit tns = .ok m ∧
      m.state_alphabets = [RESTRICTION_SITES_STATE_ALPHABET, RESTRICTION_SITES_STATE_ALPHABET] ∧
      m.defaultAlphabet = some RESTRICTION_SITES_STATE_ALPHABET) ∧
    (∃ m, infiniteInit tns = .ok m ∧
      m.state_alphabets = [INFINITE_SITES_STATE_ALPHABET, INFINITE_SITES_STATE_ALPHABET] ∧
      m.defaultAlphabet = some INFINITE_SITES_STATE_ALPHABET) :=
  ⟨⟨_, rfl, rfl, rfl⟩, ⟨_, rfl, rfl, rfl⟩, ⟨_, rfl, rfl, rfl⟩,
   ⟨_, rfl, rfl, rfl⟩, ⟨_, rfl, rfl, rfl⟩, ⟨_, rfl, rfl, rfl⟩⟩

/-- Claim C3.  Whenever key resolution yields a taxon that is not a
member of the matrix's namespace (possible only for a raw `Taxon` key,
since integer and label keys resolve inside the namespace), `__setitem__`
raises `ValueError(repr(key))` and the taxon-to-sequence map is exactly
the one the matrix had before the call. -/
theorem setitem_nonmember_fails {α : Type} (m : CharacterMatrix α) (k : MatrixKey) (t : Taxon)
    (values : List α) (hres : resolve_key m k = .ok t)
    (hmem : tnsContains m.tns t = false) :
    setItem m k values = (m, some (.valueError (keyRepr k))) := by
  simp [setItem, hres, hmem]

/-- Example matrix for the C3 witness. -/
def ex3m : CharacterMatrix Char := ⟨none, ns2, [(tA, "AC".data)]⟩

/-- A taxon that belongs to no namespace. -/
def ex3stranger : Taxon := ⟨99, "zz"⟩

/-- Witness for C3: assigning through a `Taxon` key that is not a
namespace member fails and leaves the matrix unchanged. -/
theorem setitem_nonmember_fails_witness :
    setItem ex3m (.byTaxon ex3stranger) "GG".data =
      (ex3m, some (.valueError (keyRepr (.byTaxon ex3stranger)))) :=
  setitem_nonmember_fails ex3m (.byTaxon ex3stranger) ex3stranger "GG".data rfl (by decide)

/-- A one-taxon namespace for the C4 scenario. -/
def ex4ns : TaxonNamespace := ⟨300, [⟨7, "t1"⟩]⟩

/-- A matrix with no sequences over `ex4ns`. -/
def ex4m : CharacterMatrix Char := ⟨none, ex4ns, []⟩

/-- The matrix after auto-vivification of taxon "t1". -/
def ex4mAfter : CharacterMatrix Char := ⟨none, ex4ns, [(⟨7, "t1"⟩, [])]⟩

/-- Claim C4, counterexample.  `get("t1")` auto-creates and stores an
empty sequence, but a subsequent `contains("t1")` with the *same string
key* reports `False`, because `__contains__` hands the raw key to the
taxon-keyed dict without resolving it.  The claim asserts it reports
true for every key kind. -/
theorem contains_after_get_string_key_false :
    getItem ex4m (.byLabel "t1") = .ok (([] : List Char), ex4mAfter) ∧
    rawKeyInMap ex4mAfter (.byLabel "t1") ≠ true :=
  ⟨by decide, by decide⟩

/-- Claim C4, amended.  For every key resolving to a namespace-member
taxon with no assigned sequence, `get(key)` creates an empty sequence,
stores it in the matrix, and returns it; a subsequent `contains` reports
true when queried with the resolved `Taxon` object itself, and false when
queried with the original integer or string key (the raw key is tested
directly against the taxon-keyed map). -/
theorem getitem_autovivifies {α : Type} (m : CharacterMatrix α) (k : MatrixKey) (t : Taxon)
    (hres : resolve_key m k = .ok t)
    (hmem : tnsContains m.tns t = true)
    (hnoseq : mapGet? m.seqMap t = none) :
    getItem m k = .ok (([] : List α), { m with seqMap := m.seqMap ++ [(t, [])] }) ∧
    rawKeyInMap { m with seqMap := m.seqMap ++ [(t, [])] } (.byTaxon t) = true ∧
    (∀ s, k = .byLabel s → rawKeyInMap { m with seqMap := m.seqMap ++ [(t, [])] } k = false) ∧
    (∀ i, k = .byIndex i → rawKeyInMap { m with seqMap := m.seqMap ++ [(t, [])] } k = false) := by
  refine ⟨?_, ?_, ?_, ?_⟩
  · simp [getItem, hres, hnoseq, new_sequence, mapContains, hmem]
  · simp [rawKeyInMap, mapContains, mapGet?_append, hnoseq, mapGet?]
  · intro s hk
    rw [hk]
    rfl
  · intro i hk
    rw [hk]
    rfl

/-- Witness for the amended C4: accessing the empty matrix through the
integer key `0` auto-creates the sequence; membership then holds for the
`Taxon` object. -/
theorem getitem_autovivifies_witness :
    getItem ex4m (.byIndex 0) = .ok (([] : List Char), ex4mAfter) ∧
    rawKeyInMap ex4mAfter (.byTaxon ⟨7, "t1"⟩) = true :=
  ⟨(getitem_autovivifies ex4m (.byIndex 0) ⟨7, "t1"⟩ (by decide) (by decide) (by decide)).1,
   (getitem_autovivifies ex4m (.byIndex 0) ⟨7, "t1"⟩ (by decide) (by decide) (by decide)).2.1⟩

/-- Claim C2.  Every bulk merge operation raises the identity/namespace
error when the other matrix's namespace is not the identical object
(`nsId` models reference identity, so two structurally equal namespaces
with different identities also fail); otherwise the resulting sequence
of any taxon follows the semantics table: `add_sequences` copies in only
taxa new to self, `replace_sequences` overwrites only shared taxa,
`update_sequences` does both, `extend_sequences` appends to shared taxa
only, and `extend_matrix` appends to shared taxa and copies in new ones. -/
theorem bulk_merge_semantics {α : Type} (self other : CharacterMatrix α) (t : Taxon)
    (hnd : keysNodup other.seqMap) :
    (self.tns.nsId ≠ other.tns.nsId →
      add_sequences self other = .error .taxonNamespaceError ∧
      replace_sequences self other = .error .taxonNamespaceError ∧
      update_sequences self other = .error .taxonNamespaceError ∧
      extend_sequences self other = .error .taxonNamespaceError ∧
      extend_matrix self other = .error .taxonNamespaceError) ∧
    (self.tns.nsId = other.tns.nsId →
      (∃ r, add_sequences self other = .ok r ∧
        mapGet? r.seqMap t =
          match mapGet? self.seqMap t with
          | some v => some v
          | none => mapGet? other.seqMap t) ∧
      (∃ r, replace_sequences self other = .ok r ∧
        mapGet? r.seqMap t =
          match mapGet? self.seqMap t, mapGet? other.seqMap t with
          | some _, some w => some w
          | some v, none => some v
          | none, _ => none) ∧
      (∃ r, update_sequences self other = .ok r ∧
        mapGet? r.seqMap t =
          match mapGet? other.seqMap t with
          | some w => some w
          | none => mapGet? self.seqMap t) ∧
      (∃ r, extend_sequences self other = .ok r ∧
        mapGet? r.seqMap t =
          match mapGet? self.seqMap t, mapGet? other.seqMap t with
          | some v, some w => some (v ++ w)
          | some v, none => some v
          | none, _ => none) ∧
      (∃ r, extend_matrix self other = .ok r ∧
        mapGet? r.seqMap t =
          match mapGet? self.seqMap t, mapGet? other.seqMap t with
          | some v, some w => some (v ++ w)
          | some v, none => some v
          | none, w => w)) := by
  constructor
  · intro hne
    exact ⟨by simp [add_sequences, hne], by simp [replace_sequences, hne],
      by simp [update_sequences, hne], by simp [extend_sequences, hne],
      by simp [extend_matrix, hne]⟩
  · intro heq
    refine ⟨?_, ?_, ?_, ?_, ?_⟩
    · refine ⟨{ self with seqMap := other.seqMap.foldl addStep self.seqMap },
        by simp [add_sequences, heq], ?_⟩
      exact addFold_get other.seqMap self.seqMap t
    · refine ⟨{ self with seqMap := other.seqMap.foldl replaceStep self.seqMap },
        by simp [replace_sequences, heq], ?_⟩
      refine Eq.trans (replaceFold_get other.seqMap self.seqMap t hnd) ?_
      cases h1 : mapGet? self.seqMap t <;> cases h2 : mapGet? other.seqMap t <;> simp [h1, h2]
    · refine ⟨{ self with seqMap := other.seqMap.foldl updateStep self.seqMap },
        by simp [update_sequences, heq], ?_⟩
      exact updateFold_get other.seqMap self.seqMap t hnd
    · refine ⟨{ self with seqMap := other.seqMap.foldl extendSeqStep self.seqMap },
        by simp [extend_sequences, heq], ?_⟩
      refine Eq.trans (extendSeqFold_get other.seqMap self.seqMap t hnd) ?_
      cases h1 : mapGet? self.seqMap t <;> cases h2 : mapGet? other.seqMap t <;> simp [h1, h2]
    · refine ⟨{ self with seqMap := other.seqMap.foldl extendMatStep self.seqMap },
        by simp [extend_matrix, heq], ?_⟩
      refine Eq.trans (extendMatFold_get other.seqMap self.seqMap t hnd) ?_
      cases h1 : mapGet? self.seqMap t <;> cases h2 : mapGet? other.seqMap t <;> simp [h1, h2]

/-- A two-taxon namespace for the C2 witness. -/
def ex2ns : TaxonNamespace := ⟨400, [⟨11, "s1"⟩, ⟨12, "s2"⟩]⟩

/-- A namespace structurally equal to `ex2ns` but a different object. -/
def ex2nsCopy : TaxonNamespace := ⟨401, [⟨11, "s1"⟩, ⟨12, "s2"⟩]⟩

/-- Destination matrix for the C2 witness: only taxon "s1" has a
sequence. -/
def ex2self : CharacterMatrix Char := ⟨none, ex2ns, [(⟨11, "s1"⟩, ['A'])]⟩

/-- Source matrix for the C2 witness: both taxa have sequences. -/
def ex2other : CharacterMatrix Char := ⟨none, ex2ns, [(⟨11, "s1"⟩, ['B']), (⟨12, "s2"⟩, ['C'])]⟩

/-- Source matrix over the structurally-equal-but-distinct namespace. -/
def ex2otherAlien : CharacterMatrix Char := ⟨none, ex2nsCopy, [(⟨11, "s1"⟩, ['B'])]⟩

/-- Witness for C2: the namespace-identity error fires across
structurally equal namespaces, and each policy row of the semantics
table is observed on concrete data. -/
theorem bulk_merge_semantics_witness :
    add_sequences ex2self ex2otherAlien = .error .taxonNamespaceError ∧
    (∃ r, add_sequences ex2self ex2other = .ok r ∧ mapGet? r.seqMap ⟨12, "s2"⟩ = some ['C']) ∧
    (∃ r, replace_sequences ex2self ex2other = .ok r ∧ mapGet? r.seqMap ⟨12, "s2"⟩ = none) ∧
    (∃ r, update_sequences ex2self ex2other = .ok r ∧ mapGet? r.seqMap ⟨11, "s1"⟩ = some ['B']) ∧
    (∃ r, extend_sequences ex2self ex2other = .ok r ∧
      mapGet? r.seqMap ⟨11, "s1"⟩ = some ['A', 'B']) ∧
    (∃ r, extend_matrix ex2self ex2other = .ok r ∧ mapGet? r.seqMap ⟨12, "s2"⟩ = some ['C']) := by
  refine ⟨((bulk_merge_semantics ex2self ex2otherAlien ⟨11, "s1"⟩ (by decide)).1 (by decide)).1,
    ?_, ?_, ?_, ?_, ?_⟩
  · obtain ⟨r, hr, hv⟩ := ((bulk_merge_semantics ex2self ex2other ⟨12, "s2"⟩ (by decide)).2 rfl).1
    exact ⟨r, hr, hv.trans (by decide)⟩
  · obtain ⟨r, hr, hv⟩ :=
      ((bulk_merge_semantics ex2self ex2other ⟨12, "s2"⟩ (by decide)).2 rfl).2.1
    exact ⟨r, hr, hv.trans (by decide)⟩
  · obtain ⟨r, hr, hv⟩ :=
      ((bulk_merge_semantics ex2self ex2other ⟨11, "s1"⟩ (by decide)).2 rfl).2.2.1
    exact ⟨r, hr, hv.trans (by decide)⟩
  · obtain ⟨r, hr, hv⟩ :=
      ((bulk_merge_semantics ex2self ex2other ⟨11, "s1"⟩ (by decide)).2 rfl).2.2.2.1
    exact ⟨r, hr, hv.trans (by decide)⟩
  · obtain ⟨r, hr, hv⟩ :=
      ((bulk_merge_semantics ex2self ex2other ⟨12, "s2"⟩ (by decide)).2 rfl).2.2.2.2
    exact ⟨r, hr, hv.trans (by decide)⟩

/-- Claim C8.  Iterating a matrix yields a taxon exactly when it is a
namespace member with a sequence; under the invariant that all map keys
are namespace members, the yielded identities are exactly the map's
identities; and two matrices over the same namespace whose maps hold the
same taxa - regardless of insertion order - iterate identically (the
order is the namespace's, never the map's). -/
theorem iteration_order_spec {α : Type} (m₁ m₂ : CharacterMatrix α)
    (hinv : ∀ p ∈ m₁.seqMap, tnsContains m₁.tns p.1 = true)
    (hsame : m₁.tns = m₂.tns)
    (hkeys : ∀ t ∈ m₁.tns.taxa, mapContains m₁.seqMap t = mapContains m₂.seqMap t) :
    (∀ t, t ∈ matrixIter m₁ ↔ (t ∈ m₁.tns.taxa ∧ mapContains m₁.seqMap t = true)) ∧
    (∀ i, (∃ t ∈ matrixIter m₁, t.id = i) ↔ (∃ p ∈ m₁.seqMap, p.1.id = i)) ∧
    matrixIter m₁ = matrixIter m₂ := by
  refine ⟨?_, ?_, ?_⟩
  · intro t
    simp [matrixIter, List.mem_filter]
  · intro i
    constructor
    · rintro ⟨t, ht, rfl⟩
      simp only [matrixIter, List.mem_filter] at ht
      have hs : (mapGet? m₁.seqMap t).isSome = true := by
        simpa [mapContains] using ht.2
      have hmem := (mapGet?_isSome_iff m₁.seqMap t).mp hs
      obtain ⟨p, hp, hpid⟩ := List.mem_map.mp hmem
      exact ⟨p, hp, hpid⟩
    · rintro ⟨p, hp, rfl⟩
      have htc := hinv p hp
      simp only [tnsContains, List.any_eq_true, decide_eq_true_eq] at htc
      obtain ⟨x, hx, hxid⟩ := htc
      have hxc : mapContains m₁.seqMap x = true := by
        have : x.id ∈ m₁.seqMap.map (fun q => q.1.id) :=
          List.mem_map.mpr ⟨p, hp, hxid.symm⟩
        simpa [mapContains] using (mapGet?_isSome_iff m₁.seqMap x).mpr this
      refine ⟨x, ?_, hxid⟩
      simp only [matrixIter, List.mem_filter]
      exact ⟨hx, by simpa using hxc⟩
  · unfold matrixIter
    rw [← hsame]
    apply List.filter_congr
    intro t ht
    simpa using hkeys t ht

/-- First C8 example matrix: sequences inserted in reverse namespace
order. -/
def ex8a : CharacterMatrix Char := ⟨none, ns2, [(tB, "GA".data), (tA, "TC".data)]⟩

/-- Second C8 example matrix: same sequences inserted in namespace
order. -/
def ex8b : CharacterMatrix Char := ⟨none, ns2, [(tA, "TC".data), (tB, "GA".data)]⟩

/-- Witness for C8: the two insertion orders iterate identically, and
membership in the iteration matches namespace-plus-map membership. -/
theorem iteration_order_spec_witness :
    matrixIter ex8a = matrixIter ex8b ∧
    (tA ∈ matrixIter ex8a ↔ (tA ∈ ex8a.tns.taxa ∧ mapContains ex8a.seqMap tA = true)) :=
  ⟨(iteration_order_spec ex8a ex8b (by decide) rfl (by decide)).2.2,
   (iteration_order_spec ex8a ex8b (by decide) rfl (by decide)).1 tA⟩

/-- Claim C7.  On success, `remap_to_state_alphabet_by_symbol` replaces
every cell's state identity with the target-alphabet identity carrying
the same symbol (the maps are pointwise related), and with purging
enabled the target becomes the matrix's only registered alphabet and its
default; if any cell's symbol has no counterpart in the target alphabet,
the call fails with a `KeyError` naming an unmapped symbol. -/
theorem remap_by_symbol_spec (m : DiscreteCharacterMatrix) (sa : StateAlphabet) (purge : Bool) :
    (∀ res, remap_to_state_alphabet_by_symbol m sa purge = .ok res →
      List.Forall₂ (fun p q => p.1 = q.1 ∧
        List.Forall₂ (fun c c' => symbol_state_map sa c.value.symbol = some c'.value) p.2 q.2)
        m.matrix.seqMap res.matrix.seqMap ∧
      (purge = true → res.state_alphabets = [sa] ∧ res.defaultAlphabet = some sa)) ∧
    ((∃ p ∈ m.matrix.seqMap, ∃ c ∈ p.2, symbol_state_map sa c.value.symbol = none) →
      ∃ sym, remap_to_state_alphabet_by_symbol m sa purge = .error (.keyError sym) ∧
        symbol_state_map sa sym = none) := by
  constructor
  · intro res h
    unfold remap_to_state_alphabet_by_symbol at h
    cases hall : remapAll sa m.matrix.seqMap with
    | error e => rw [hall] at h; cases h
    | ok sm =>
        rw [hall] at h
        cases purge with
        | true =>
            simp only [if_pos rfl] at h
            cases h
            refine ⟨remapAll_ok hall, fun _ => ?_⟩
            constructor
            · simp [set_default_state_alphabet]
            · simp [set_default_state_alphabet]
        | false =>
            simp only [Bool.false_eq_true, if_false] at h
            cases h
            exact ⟨remapAll_ok hall, fun hfalse => by cases hfalse⟩
  · rintro ⟨p, hp, c, hc, hnone⟩
    cases hall : remapAll sa m.matrix.seqMap with
    | ok sm => exact absurd hnone (remapAll_ok_all_mapped hall p hp c hc)
    | error e =>
        obtain ⟨sym, rfl, hsym⟩ := remapAll_error_shape hall
        refine ⟨sym, ?_, hsym⟩
        unfold remap_to_state_alphabet_by_symbol
        rw [hall]

/-- Target alphabet for the C7 witness: the four unambiguous DNA symbols,
no "N". -/
def ex7sa : StateAlphabet := ⟨9, [⟨90, "A"⟩, ⟨91, "C"⟩, ⟨92, "G"⟩, ⟨93, "T"⟩]⟩

/-- A DNA-like matrix containing a cell with symbol "N". -/
def ex7m : DiscreteCharacterMatrix :=
  ⟨⟨none, ns2, [(tA, [⟨⟨10, "A"⟩⟩, ⟨⟨14, "N"⟩⟩])]⟩,
   [DNA_STATE_ALPHABET, DNA_STATE_ALPHABET], some DNA_STATE_ALPHABET, []⟩

/-- A DNA-like matrix whose only cell carries symbol "A". -/
def ex7ok : DiscreteCharacterMatrix :=
  ⟨⟨none, ns2, [(tA, [⟨⟨10, "A"⟩⟩])]⟩,
   [DNA_STATE_ALPHABET, DNA_STATE_ALPHABET], some DNA_STATE_ALPHABET, []⟩

/-- The expected result of remapping `ex7ok` onto `ex7sa` with purging. -/
def ex7res : DiscreteCharacterMatrix :=
  ⟨⟨none, ns2, [(tA, [⟨⟨90, "A"⟩⟩])]⟩, [ex7sa], some ex7sa, []⟩

/-- Witness for C7: remapping the matrix holding an "N" cell onto the
N-less alphabet raises a `KeyError` for an unmapped symbol, while
remapping the all-"A" matrix succeeds, relates the maps pointwise, and
leaves the target as sole and default alphabet. -/
theorem remap_by_symbol_spec_witness :
    (∃ sym, remap_to_state_alphabet_by_symbol ex7m ex7sa true = .error (.keyError sym) ∧
      symbol_state_map ex7sa sym = none) ∧
    (List.Forall₂ (fun p q => p.1 = q.1 ∧
        List.Forall₂ (fun c c' => symbol_state_map ex7sa c.value.symbol = some c'.value) p.2 q.2)
      ex7ok.matrix.seqMap ex7res.matrix.seqMap ∧
      (true = true → ex7res.state_alphabets = [ex7sa] ∧ ex7res.defaultAlphabet = some ex7sa)) :=
  ⟨(remap_by_symbol_spec ex7m ex7sa true).2
      ⟨(tA, [⟨⟨10, "A"⟩⟩, ⟨⟨14, "N"⟩⟩]), by decide, ⟨⟨14, "N"⟩⟩, by decide, by decide⟩,
   (remap_by_symbol_spec ex7ok ex7sa true).1 ex7res (by decide)⟩

/-- Claim C9, counterexample.  The lookup error for an unrecognized tag
does not name the set of valid tags: the format string holds a single
placeholder, so the message for tag "xml" is exactly
"Unrecognized data type specification: \x27xml\x27", in which no valid
tag such as "continuous" or "dna" occurs. -/
theorem factory_message_lacks_valid_tags :
    get_char_matrix_type (some "xml") =
      .error (.keyError "Unrecognized data type specification: \x27xml\x27") ∧
    strHasSub "continuous".data "Unrecognized data type specification: \x27xml\x27".data
      = false ∧
    strHasSub "dna".data "Unrecognized data type specification: \x27xml\x27".data = false :=
  ⟨by decide, by decide, by decide⟩

/-- Claim C9, amended.  `get_char_matrix_type` and `new_char_matrix` map
each of the seven tags to the corresponding concrete matrix variant, and
for every unrecognized tag they fail with a lookup error naming the
offending tag (the valid-tag set passed to the format call is discarded
by the single-placeholder format string and does not reach the message). -/
theorem char_matrix_factory_amended (dt : String)
    (hun : lookupTag data_type_matrix_map dt = none) :
    (get_char_matrix_type (some dt) =
        .error (.keyError ("Unrecognized data type specification: \x27" ++ dt ++ "\x27")) ∧
      new_char_matrix (some dt) =
        .error (.keyError ("Unrecognized data type specification: \x27" ++ dt ++ "\x27"))) ∧
    (get_char_matrix_type (some "dna") = .ok .dnaV ∧
      get_char_matrix_type (some "rna") = .ok .rnaV ∧
      get_char_matrix_type (some "protein") = .ok .proteinV ∧
      get_char_matrix_type (some "standard") = .ok .standardV ∧
      get_char_matrix_type (some "continuous") = .ok .continuousV ∧
      get_char_matrix_type (some "restriction") = .ok .restrictionV ∧
      get_char_matrix_type (some "infinite") = .ok .infiniteV ∧
      new_char_matrix (some "dna") = .ok .dnaV ∧
      new_char_matrix (some "rna") = .ok .rnaV ∧
      new_char_matrix (some "protein") = .ok .proteinV ∧
      new_char_matrix (some "standard") = .ok .standardV ∧
      new_char_matrix (some "continuous") = .ok .continuousV ∧
      new_char_matrix (some "restriction") = .ok .restrictionV ∧
      new_char_matrix (some "infinite") = .ok .infiniteV) := by
  constructor
  · constructor
    · simp [get_char_matrix_type, hun]
    · simp [new_char_matrix, get_char_matrix_type, hun]
  · exact ⟨rfl, rfl, rfl, rfl, rfl, rfl, rfl, rfl, rfl, rfl, rfl, rfl, rfl, rfl⟩

/-- Witness for the amended C9: tag "xml" is not in the table, fails with
the tag-naming lookup error, and the "dna" tag resolves to the DNA
variant. -/
theorem char_matrix_factory_amended_witness :
    get_char_matrix_type (some "xml") =
      .error (.keyError ("Unrecognized data type specification: \x27" ++ "xml" ++ "\x27")) ∧
    get_char_matrix_type (some "dna") = .ok .dnaV :=
  ⟨(char_matrix_factory_amended "xml" (by decide)).1.1,
   (char_matrix_factory_amended "xml" (by decide)).2.1⟩

end DendroPy
